import Mathlib

/-!
Verification of the VoisLab promotion validation and orchestration engine.

Shallow embedding of:
  - `src/infrastructure/lambda/content-promoter/index.py`
    (class `ContentPromoter`: validation, audio-quality checks, promotion), and
  - `src/infrastructure/lambda/promotion-orchestrator/index.py`
    (class `PromotionOrchestrator`: candidate scan, single-track workflow,
    batch promotion, follow-up scheduling in `handler`).

Modelling conventions: Python dict records become a `Track` structure whose
optional fields are `Option`; Python truthiness of `track.get(f)` is modelled
per field type (`strTruthy`, `ratTruthy`); numeric values (duration seconds,
file size bytes) are `ℚ`; external calls (S3 listing/copy, DynamoDB put/update,
Lambda invocations) are modelled by explicit parameters or failure-injection
flags, and the side effects of promotion by an explicit `PromoteWorld` state.
Wall-clock timestamps (`promotedAt`, ISO date strings) are not modelled beyond
the record age in hours that the scan computes from `createdDate`.
-/

/-- One audio item's metadata record (a DynamoDB item of the DEV metadata
table).  Fields that the promotion subsystem reads; `none` models an absent
attribute. -/
structure Track where
  id : String
  createdDate : String
  status : Option String
  title : Option String
  filename : Option String
  fileUrl : Option String
  duration : Option ℚ
  fileSize : Option ℚ
  description : Option String
  genre : Option String
  tags : List String
  promotionStatus : Option String
deriving Repr, DecidableEq

/-- Python truthiness of `track.get(field)` for a string-valued field:
absent and the empty string are falsy. -/
def strTruthy : Option String → Bool
  | none => false
  | some s => s ≠ ""

/-- Python truthiness of `track.get(field)` for a numeric field:
absent and `0` are falsy. -/
def ratTruthy : Option ℚ → Bool
  | none => false
  | some q => q ≠ 0

/-- Python `str` of `track.get('status')`: `None` prints as `"None"`. -/
def optStr : Option String → String
  | none => "None"
  | some s => s

/-- One entry of the validation `checks` list: name, pass/fail, message. -/
structure CheckResult where
  name : String
  passed : Bool
  message : String
deriving Repr, DecidableEq

/-- Check 1 of `validate_content_for_promotion`: processing status. -/
def statusCheck (track : Track) : CheckResult :=
  if track.status ≠ some "processed" then
    { name := "Processing Status", passed := false,
      message := "Track status is '" ++ optStr track.status ++ "', expected 'processed'" }
  else
    { name := "Processing Status", passed := true,
      message := "Track is fully processed" }

/-- The four required metadata fields, in the order the source iterates them
(`required_fields = ['title', 'filename', 'fileUrl', 'duration']`). -/
inductive ReqField
  | title
  | filename
  | fileUrl
  | duration
deriving Repr, DecidableEq

def fieldName : ReqField → String
  | .title => "title"
  | .filename => "filename"
  | .fileUrl => "fileUrl"
  | .duration => "duration"

/-- Truthiness of `track.get(field)` for each required field. -/
def fieldTruthy (track : Track) : ReqField → Bool
  | .title => strTruthy track.title
  | .filename => strTruthy track.filename
  | .fileUrl => strTruthy track.fileUrl
  | .duration => ratTruthy track.duration

def required_fields : List ReqField :=
  [ReqField.title, ReqField.filename, ReqField.fileUrl, ReqField.duration]

/-- Check 2 of `validate_content_for_promotion`, one required field. -/
def requiredFieldCheck (track : Track) (f : ReqField) : CheckResult :=
  if !fieldTruthy track f then
    { name := "Required Field: " ++ fieldName f, passed := false,
      message := "Missing required field: " ++ fieldName f }
  else
    { name := "Required Field: " ++ fieldName f, passed := true,
      message := fieldName f ++ " is present" }

/-- `ContentPromoter._validate_audio_quality`: duration in [1 s, 600 s] and
file size in [10000 B, 52428800 B] (10 KB to 50 * 1024 * 1024 B), checked in
that order with a
specific message for the first violated bound. -/
def validate_audio_quality (track : Track) : CheckResult :=
  let duration := track.duration.getD 0
  let file_size := track.fileSize.getD 0
  if duration < 1 then
    { name := "Audio Quality", passed := false,
      message := "Duration is too short (less than 1 second)" }
  else if duration > 600 then
    { name := "Audio Quality", passed := false,
      message := "Duration is too long (over 10 minutes)" }
  else if file_size < 10000 then
    { name := "Audio Quality", passed := false,
      message := "File size is too small (likely corrupted)" }
  else if file_size > 52428800 then -- 50 * 1024 * 1024
    { name := "Audio Quality", passed := false,
      message := "File size is too large (over 50MB)" }
  else
    { name := "Audio Quality", passed := true,
      message := "Audio quality checks passed" }

/-- Result of `validate_content_for_promotion` on a found record: the `valid`
flag, the ordered `checks` list, the `warnings` list and the record itself
(the source puts the track into the result under key `track`). -/
structure ValidationResult where
  valid : Bool
  checks : List CheckResult
  warnings : List String
  track : Option Track
deriving Repr, DecidableEq

/-- `ContentPromoter.validate_content_for_promotion`, on the path where the
DEV query found the record `track`.  `fileExists` stands for the result of
`_check_file_exists_in_bucket` (the S3 listing, an external call).  `valid`
starts true and is cleared by every failing hard check, which equals the
conjunction of all hard checks. -/
def validate_content_for_promotion (track : Track) (fileExists : Bool) : ValidationResult :=
  let check1 := statusCheck track
  let reqChecks := required_fields.map (requiredFieldCheck track)
  let check3 : CheckResult :=
    { name := "File Existence", passed := fileExists,
      message := if fileExists then "Audio file exists in DEV bucket"
                 else "Audio file not found in DEV bucket" }
  let check4 := validate_audio_quality track
  let checks := check1 :: reqChecks ++ [check3, check4]
  let warnings :=
    (if !strTruthy track.description then ["No description provided"] else []) ++
    (if !strTruthy track.genre || track.genre = some "unknown" then ["Genre not specified"] else []) ++
    (if track.tags.length = 0 then ["No tags specified"] else [])
  { valid := checks.all (·.passed), checks := checks, warnings := warnings,
    track := some track }

/-- Removing one field from a record (deleting the dict key). -/
def removeField (track : Track) : ReqField → Track
  | .title => { track with title := none }
  | .filename => { track with filename := none }
  | .fileUrl => { track with fileUrl := none }
  | .duration => { track with duration := none }

/-- The failing entries of a validation's `checks` list. -/
def failedChecks (vr : ValidationResult) : List CheckResult :=
  vr.checks.filter (fun c => !c.passed)

/-- The production copy of a record built by `_create_prod_metadata`: the DEV
fields with `promotedFrom='dev'`, `environment='prod'` and the file URL
rewritten from the DEV bucket to the PROD bucket (`promotedAt`, a wall-clock
timestamp, is not modelled). -/
structure ProdMeta where
  base : Track
  promotedFrom : String
  environment : String
deriving Repr, DecidableEq

/-- `ContentPromoter._create_prod_metadata`. -/
def create_prod_metadata (devBucket prodBucket : String) (dev_track : Track) : ProdMeta :=
  { base := { dev_track with
      fileUrl := dev_track.fileUrl.map (fun u => u.replace devBucket prodBucket) },
    promotedFrom := "dev",
    environment := "prod" }

/-- Failure injection for the external calls of `promote_content_to_prod`:
`copyFailIdx = some i` makes the S3 copy of the `i`-th listed object raise
(objects before it are already copied: the partial-completion risk the design
accepts); `putItemFails` makes the PROD `put_item` raise; `updateFails` makes
the DEV `update_item` inside `_update_dev_promotion_status` raise. -/
structure PromotionEnv where
  copyFailIdx : Option Nat
  putItemFails : Bool
  updateFails : Bool
deriving Repr, DecidableEq

/-- The state `promote_content_to_prod` touches: the object keys listed under
the track's prefix in the DEV bucket, the keys present in the PROD bucket, the
PROD metadata table, and the track's staging record in the DEV table. -/
structure PromoteWorld where
  devObjects : List String
  prodObjects : List String
  prodTable : List ProdMeta
  devRecord : Track
deriving Repr, DecidableEq

/-- `ContentPromoter._copy_audio_files`: copies every listed object in order;
a raise at index `i` leaves the first `i` objects copied and propagates.
Returns the copy outcome and the list of keys actually copied. -/
def copy_audio_files (keys : List String) (failIdx : Option Nat) :
    Except String (List String) × List String :=
  match failIdx with
  | none => (Except.ok keys, keys)
  | some i =>
      if i < keys.length then (Except.error "copy failed", keys.take i)
      else (Except.ok keys, keys)

/-- Whether `_copy_audio_files` completes without raising. -/
def copySucceeds (keys : List String) (failIdx : Option Nat) : Bool :=
  match failIdx with
  | none => true
  | some i => decide (keys.length ≤ i)

/-- The success payload of `promote_content_to_prod` (`promotedAt`, a
wall-clock timestamp, is not modelled). -/
structure PromotionResult where
  trackId : String
  copiedFiles : List String
  prodMetadata : ProdMeta
deriving Repr, DecidableEq

/-- `ContentPromoter.promote_content_to_prod`: raises (models as
`Except.error`) if the validation result is not valid, then copies the audio
files, inserts the PROD record, and finally calls
`_update_dev_promotion_status` — whose own `try/except` catches any raise of
the DEV `update_item` and only logs it, so a failing final update does not
change the returned result.  Returns the outcome paired with the state after
the call. -/
def promote_content_to_prod (devBucket prodBucket : String) (env : PromotionEnv)
    (validation_results : ValidationResult) (w : PromoteWorld) :
    Except String PromotionResult × PromoteWorld :=
  if !validation_results.valid then
    (Except.error "Content failed validation, cannot promote", w)
  else
    match validation_results.track with
    | none => (Except.error "KeyError: track", w)
    | some track =>
      match copy_audio_files w.devObjects env.copyFailIdx with
      | (Except.error e, copied) =>
          (Except.error e, { w with prodObjects := w.prodObjects ++ copied })
      | (Except.ok copiedFiles, copied) =>
          let w1 := { w with prodObjects := w.prodObjects ++ copied }
          let prod_metadata := create_prod_metadata devBucket prodBucket track
          if env.putItemFails then
            (Except.error "put_item failed", w1)
          else
            let w2 := { w1 with prodTable := w1.prodTable ++ [prod_metadata] }
            let w3 :=
              if env.updateFails then w2
              else { w2 with devRecord := { w2.devRecord with promotionStatus := some "promoted" } }
            (Except.ok { trackId := track.id, copiedFiles := copiedFiles,
                         prodMetadata := prod_metadata }, w3)

/-- A row of the DEV metadata table as the candidate scan sees it: the record
plus its age in hours, the value the scan computes from `createdDate` and the
current wall clock. -/
structure DevRecord where
  track : Track
  ageHours : ℚ
deriving Repr, DecidableEq

/-- A candidate summary built by `scan_for_promotion_candidates`. -/
structure Candidate where
  trackId : String
  title : String
  createdDate : String
  ageHours : ℚ
  fileSize : ℚ
  duration : ℚ
deriving Repr, DecidableEq

def mkCandidate (r : DevRecord) : Candidate :=
  { trackId := r.track.id,
    title := r.track.title.getD "Unknown",
    createdDate := r.track.createdDate,
    ageHours := r.ageHours,
    fileSize := r.track.fileSize.getD 0,
    duration := r.track.duration.getD 0 }

/-- `PromotionOrchestrator.scan_for_promotion_candidates`: returns `[]` when
the DEV table is not configured (`table = none`); the DynamoDB scan filters to
`status = 'processed' AND attribute_not_exists(promotionStatus)`; a raise of
the scan call (`scanFails`) is caught and returns `[]`; the loop keeps records
at least 1 hour old. -/
def scan_for_promotion_candidates (table : Option (List DevRecord)) (scanFails : Bool) :
    List Candidate :=
  match table with
  | none => []
  | some records =>
      if scanFails then []
      else
        ((records.filter (fun r =>
            decide (r.track.status = some "processed") &&
            decide (r.track.promotionStatus = none))).filter
          (fun r => decide (1 ≤ r.ageHours))).map mkCandidate

/-- One entry of a workflow result's `steps` list: step name and whether that
step succeeded (the source also attaches the step's raw result payload). -/
structure StepResult where
  step : String
  success : Bool
deriving Repr, DecidableEq

/-- Result of `process_promotion_workflow` (`startTime`/`endTime`, wall-clock
timestamps, are not modelled). -/
structure WorkflowResult where
  trackId : String
  steps : List StepResult
  success : Bool
  error : Option String
deriving Repr, DecidableEq

/-- `PromotionOrchestrator.process_promotion_workflow`: runs validation,
promotion and post-promotion testing in order, recording a step result for
each executed step and returning immediately after the first failing of the
first two steps.  `validationValid`, `promotionSuccess` and `testSuccess` are
the outcomes of the three collaborator invocations
(`validate_promotion_candidate`, `execute_promotion`,
`run_post_promotion_tests`), each of which catches its own exceptions and
returns a structured result. -/
def process_promotion_workflow (track_id : String)
    (validationValid promotionSuccess testSuccess : Bool) : WorkflowResult :=
  let step1 : StepResult := { step := "validation", success := validationValid }
  if !validationValid then
    { trackId := track_id, steps := [step1], success := false,
      error := some "Validation failed" }
  else
    let step2 : StepResult := { step := "promotion", success := promotionSuccess }
    if !promotionSuccess then
      { trackId := track_id, steps := [step1, step2], success := false,
        error := some "Promotion failed" }
    else
      let step3 : StepResult := { step := "testing", success := testSuccess }
      let steps := [step1, step2, step3]
      let success := steps.all (·.success)
      { trackId := track_id, steps := steps, success := success,
        error := if !success then some "Post-promotion tests failed" else none }

/-- The `summary` block of a batch result.  The source initialises
`validated` to 0 and never increments it. -/
structure BatchSummary where
  scanned : Nat
  validated : Nat
  promoted : Nat
  failed : Nat
deriving Repr, DecidableEq

/-- Result of `process_batch_promotion` (timestamps not modelled). -/
structure BatchResult where
  maxPromotions : Nat
  candidates : List Candidate
  promotions : List WorkflowResult
  summary : BatchSummary
deriving Repr, DecidableEq

/-- `PromotionOrchestrator.process_batch_promotion`: scans for candidates,
records `scanned = len(candidates)`, runs the promotion workflow on
`candidates[:max_promotions]` in order, counting each workflow once as
promoted or failed.  `validF`, `promoF` and `testF` give, per track id, the
outcomes of the three collaborator invocations of each workflow. -/
def process_batch_promotion (table : Option (List DevRecord)) (scanFails : Bool)
    (validF promoF testF : String → Bool) (max_promotions : Nat) : BatchResult :=
  let candidates := scan_for_promotion_candidates table scanFails
  let promotions := (candidates.take max_promotions).map
    (fun c => process_promotion_workflow c.trackId (validF c.trackId)
                (promoF c.trackId) (testF c.trackId))
  { maxPromotions := max_promotions,
    candidates := candidates,
    promotions := promotions,
    summary :=
      { scanned := candidates.length,
        validated := 0,
        promoted := promotions.countP (fun r => r.success),
        failed := promotions.countP (fun r => !r.success) } }

/-- The `batch_promotion` action of the orchestrator `handler`: runs
`process_batch_promotion`, then calls `schedule_next_batch` exactly once iff
`scanned > promoted + failed`.  Returns the batch result paired with the
number of follow-up scheduling calls made. -/
def handler_batch_promotion (table : Option (List DevRecord)) (scanFails : Bool)
    (validF promoF testF : String → Bool) (maxPromotions : Nat) :
    BatchResult × Nat :=
  let result := process_batch_promotion table scanFails validF promoF testF maxPromotions
  (result,
   if result.summary.promoted + result.summary.failed < result.summary.scanned then 1 else 0)

/-! ### Concrete fixtures used by witnesses and counterexamples -/

/-- A staging record that passes every hard validation check. -/
def tX : Track :=
  { id := "X", createdDate := "2024-01-01T00:00:00", status := some "processed",
    title := some "Song", filename := some "track.wav",
    fileUrl := some "https://dev-bucket/audio/X/track.wav",
    duration := some 30, fileSize := some 2097152,
    description := some "demo", genre := some "rock", tags := ["a"],
    promotionStatus := none }

/-- The valid track with its duration replaced. -/
def tDur (q : ℚ) : Track := { tX with duration := some q }

/-- The valid track with its file size replaced. -/
def tSize (s : ℚ) : Track := { tX with fileSize := some s }

/-- Failure injection where only the final DEV `update_item` raises. -/
def envU : PromotionEnv := { copyFailIdx := none, putItemFails := false, updateFails := true }

/-- Failure injection where every external call succeeds. -/
def env0 : PromotionEnv := { copyFailIdx := none, putItemFails := false, updateFails := false }

/-- A world holding one audio object for track `X` and its staging record. -/
def wX : PromoteWorld :=
  { devObjects := ["audio/X/track.wav"], prodObjects := [], prodTable := [],
    devRecord := tX }

/-- Twelve eligible scan rows (processed, unpromoted, 2 hours old). -/
def recs12 : List DevRecord := List.replicate 12 { track := tX, ageHours := 2 }

/-! ### Helper lemmas -/

theorem statusCheck_name (t : Track) : (statusCheck t).name = "Processing Status" := by
  unfold statusCheck; split <;> rfl

theorem requiredFieldCheck_name (t : Track) (f : ReqField) :
    (requiredFieldCheck t f).name = "Required Field: " ++ fieldName f := by
  unfold requiredFieldCheck; split <;> rfl

theorem validate_audio_quality_name (t : Track) :
    (validate_audio_quality t).name = "Audio Quality" := by
  simp only [validate_audio_quality]
  split_ifs <;> rfl

theorem statusCheck_passed (t : Track) :
    (statusCheck t).passed = decide (t.status = some "processed") := by
  unfold statusCheck; split <;> simp_all

theorem requiredFieldCheck_passed (t : Track) (f : ReqField) :
    (requiredFieldCheck t f).passed = fieldTruthy t f := by
  unfold requiredFieldCheck; split <;> simp_all

theorem statusCheck_pass (t : Track) (h : t.status = some "processed") :
    statusCheck t =
      { name := "Processing Status", passed := true, message := "Track is fully processed" } := by
  simp [statusCheck, h]

theorem requiredFieldCheck_pass (t : Track) (f : ReqField) (h : fieldTruthy t f = true) :
    requiredFieldCheck t f =
      { name := "Required Field: " ++ fieldName f, passed := true,
        message := fieldName f ++ " is present" } := by
  simp [requiredFieldCheck, h]

theorem requiredFieldCheck_fail (t : Track) (f : ReqField) (h : fieldTruthy t f = false) :
    requiredFieldCheck t f =
      { name := "Required Field: " ++ fieldName f, passed := false,
        message := "Missing required field: " ++ fieldName f } := by
  simp [requiredFieldCheck, h]

theorem statusCheck_removeField (t : Track) (f : ReqField) :
    statusCheck (removeField t f) = statusCheck t := by
  cases f <;> rfl

theorem quality_removeField (t : Track) (f : ReqField) (hf : f ≠ ReqField.duration) :
    validate_audio_quality (removeField t f) = validate_audio_quality t := by
  cases f
  case duration => exact absurd rfl hf
  all_goals rfl

theorem quality_noDuration (t : Track) :
    validate_audio_quality { t with duration := none } =
      { name := "Audio Quality", passed := false,
        message := "Duration is too short (less than 1 second)" } := by
  have h : ((none : Option ℚ).getD 0) < 1 := by norm_num
  simp [validate_audio_quality, h]

/-- The components of `valid = true`: every hard check passed. -/
theorem valid_components (t : Track) (fe : Bool)
    (h : (validate_content_for_promotion t fe).valid = true) :
    t.status = some "processed" ∧ (∀ f : ReqField, fieldTruthy t f = true) ∧ fe = true ∧
    (validate_audio_quality t).passed = true := by
  simp only [validate_content_for_promotion, required_fields, List.map_cons, List.map_nil,
    List.all_cons, List.all_append, List.all_nil, Bool.and_eq_true, Bool.and_true,
    statusCheck_passed, requiredFieldCheck_passed, decide_eq_true_eq] at h
  obtain ⟨⟨hs, h1, h2, h3, h4⟩, hfe, hq⟩ := h
  exact ⟨hs, fun f => by cases f <;> assumption, hfe, hq⟩

theorem countP_add_countP_not {α : Type} (p : α → Bool) (l : List α) :
    l.countP p + l.countP (fun a => !p a) = l.length := by
  induction l with
  | nil => rfl
  | cons a l ih =>
    rcases h : p a <;> simp [List.countP_cons, h] <;> omega

/-- Step-1 failure: the copy raises at object `i`; the first `i` objects are
already in the PROD bucket, nothing else changed, the error propagates. -/
theorem promote_copy_failure (devBucket prodBucket : String) (env : PromotionEnv)
    (vr : ValidationResult) (w : PromoteWorld) (track : Track) (i : Nat)
    (hv : vr.valid = true) (ht : vr.track = some track)
    (hc : env.copyFailIdx = some i) (hi : i < w.devObjects.length) :
    promote_content_to_prod devBucket prodBucket env vr w =
      (Except.error "copy failed",
       { w with prodObjects := w.prodObjects ++ w.devObjects.take i }) := by
  simp [promote_content_to_prod, hv, ht, copy_audio_files, hc, hi]

/-- Step-3 failure: the PROD `put_item` raises after a completed copy;
nothing is inserted, the DEV record is untouched, the error propagates. -/
theorem promote_put_failure (devBucket prodBucket : String) (env : PromotionEnv)
    (vr : ValidationResult) (w : PromoteWorld) (track : Track)
    (hv : vr.valid = true) (ht : vr.track = some track)
    (hc : copySucceeds w.devObjects env.copyFailIdx = true)
    (hp : env.putItemFails = true) :
    promote_content_to_prod devBucket prodBucket env vr w =
      (Except.error "put_item failed",
       { w with prodObjects := w.prodObjects ++ w.devObjects }) := by
  rcases hcf : env.copyFailIdx with _ | i
  · simp [promote_content_to_prod, hv, ht, copy_audio_files, hcf, hp]
  · rw [copySucceeds.eq_def, hcf] at hc
    simp only [decide_eq_true_eq] at hc
    simp [promote_content_to_prod, hv, ht, copy_audio_files, hcf, Nat.not_lt.mpr hc, hp]

/-- The successful path: copy and insert both complete; whether the final DEV
`update_item` raises or not, the call returns success, the only difference
being whether the staging record carries the `promoted` marker. -/
theorem promote_ok_path (devBucket prodBucket : String) (env : PromotionEnv)
    (vr : ValidationResult) (w : PromoteWorld) (track : Track)
    (hv : vr.valid = true) (ht : vr.track = some track)
    (hc : copySucceeds w.devObjects env.copyFailIdx = true)
    (hp : env.putItemFails = false) :
    promote_content_to_prod devBucket prodBucket env vr w =
      (Except.ok { trackId := track.id, copiedFiles := w.devObjects,
                   prodMetadata := create_prod_metadata devBucket prodBucket track },
       { w with prodObjects := w.prodObjects ++ w.devObjects,
                prodTable := w.prodTable ++ [create_prod_metadata devBucket prodBucket track],
                devRecord := if env.updateFails then w.devRecord
                             else { w.devRecord with promotionStatus := some "promoted" } }) := by
  rcases hcf : env.copyFailIdx with _ | i
  · rcases hu : env.updateFails <;>
      simp [promote_content_to_prod, hv, ht, copy_audio_files, hcf, hp, hu]
  · rw [copySucceeds.eq_def, hcf] at hc
    simp only [decide_eq_true_eq] at hc
    rcases hu : env.updateFails <;>
      simp [promote_content_to_prod, hv, ht, copy_audio_files, hcf, Nat.not_lt.mpr hc, hp, hu]

theorem quality_passed_eq (t : Track) :
    (validate_audio_quality t).passed =
      (decide (1 ≤ t.duration.getD 0) && decide (t.duration.getD 0 ≤ 600) &&
       decide (10000 ≤ t.fileSize.getD 0) && decide (t.fileSize.getD 0 ≤ 52428800)) := by
  simp only [validate_audio_quality]
  split_ifs with h1 h2 h3 h4 <;>
    simp [not_lt.mp, *, decide_eq_true_eq, decide_eq_false_iff_not, not_le]

theorem quality_msg_short (t : Track) (h : t.duration.getD 0 < 1) :
    (validate_audio_quality t).message = "Duration is too short (less than 1 second)" := by
  simp only [validate_audio_quality]
  split_ifs
  rfl

theorem quality_msg_long (t : Track) (h : 600 < t.duration.getD 0) :
    (validate_audio_quality t).message = "Duration is too long (over 10 minutes)" := by
  simp only [validate_audio_quality]
  split_ifs <;> first | rfl | linarith

theorem quality_msg_small (t : Track) (h1 : 1 ≤ t.duration.getD 0)
    (h2 : t.duration.getD 0 ≤ 600) (h : t.fileSize.getD 0 < 10000) :
    (validate_audio_quality t).message = "File size is too small (likely corrupted)" := by
  simp only [validate_audio_quality]
  split_ifs <;> first | rfl | linarith

theorem quality_msg_large (t : Track) (h1 : 1 ≤ t.duration.getD 0)
    (h2 : t.duration.getD 0 ≤ 600) (h : 52428800 < t.fileSize.getD 0) :
    (validate_audio_quality t).message = "File size is too large (over 50MB)" := by
  simp only [validate_audio_quality]
  split_ifs <;> first | rfl | linarith

/-! ### Claim theorems -/

/-- C5: the audio-quality check passes exactly when
`1 ≤ duration ≤ 600` and `10000 ≤ fileSize ≤ 52428800` (10 KB and 50 MB, both
bounds inclusive), and each violation produces the message identifying the
violated bound: short duration, long duration, small file, large file. -/
theorem audio_quality_boundary (t : Track) :
    ((validate_audio_quality t).passed = true ↔
      (1 ≤ t.duration.getD 0 ∧ t.duration.getD 0 ≤ 600 ∧
       10000 ≤ t.fileSize.getD 0 ∧ t.fileSize.getD 0 ≤ 52428800)) ∧
    (t.duration.getD 0 < 1 →
      (validate_audio_quality t).message = "Duration is too short (less than 1 second)") ∧
    (600 < t.duration.getD 0 →
      (validate_audio_quality t).message = "Duration is too long (over 10 minutes)") ∧
    (1 ≤ t.duration.getD 0 → t.duration.getD 0 ≤ 600 → t.fileSize.getD 0 < 10000 →
      (validate_audio_quality t).message = "File size is too small (likely corrupted)") ∧
    (1 ≤ t.duration.getD 0 → t.duration.getD 0 ≤ 600 → 52428800 < t.fileSize.getD 0 →
      (validate_audio_quality t).message = "File size is too large (over 50MB)") := by
  refine ⟨?_, quality_msg_short t, quality_msg_long t,
          quality_msg_small t, quality_msg_large t⟩
  simp [quality_passed_eq, decide_eq_true_eq, and_assoc]

/-- Witness for C5 at the boundary inputs of the claim: duration 0.99 fails
with the short-duration message, 1 and 600 pass, 601 fails with the
long-duration message; file sizes 9999 and 52428801 fail with the small/large
messages, 10000 and 52428800 pass. -/
theorem audio_quality_boundary_witness :
    (validate_audio_quality (tDur (mkRat 99 100))).message =
        "Duration is too short (less than 1 second)" ∧
    (validate_audio_quality (tDur (mkRat 99 100))).passed = false ∧
    (validate_audio_quality (tDur 1)).passed = true ∧
    (validate_audio_quality (tDur 600)).passed = true ∧
    (validate_audio_quality (tDur 601)).passed = false ∧
    (validate_audio_quality (tDur 601)).message = "Duration is too long (over 10 minutes)" ∧
    (validate_audio_quality (tSize 9999)).passed = false ∧
    (validate_audio_quality (tSize 9999)).message = "File size is too small (likely corrupted)" ∧
    (validate_audio_quality (tSize 10000)).passed = true ∧
    (validate_audio_quality (tSize 52428800)).passed = true ∧
    (validate_audio_quality (tSize 52428801)).passed = false ∧
    (validate_audio_quality (tSize 52428801)).message = "File size is too large (over 50MB)" :=
  ⟨(audio_quality_boundary (tDur (mkRat 99 100))).2.1 (by decide),
   by decide,
   (audio_quality_boundary (tDur 1)).1.mpr (by decide),
   (audio_quality_boundary (tDur 600)).1.mpr (by decide),
   by decide,
   (audio_quality_boundary (tDur 601)).2.2.1 (by decide),
   by decide,
   (audio_quality_boundary (tSize 9999)).2.2.2.1 (by decide) (by decide) (by decide),
   (audio_quality_boundary (tSize 10000)).1.mpr (by decide),
   (audio_quality_boundary (tSize 52428800)).1.mpr (by decide),
   by decide,
   (audio_quality_boundary (tSize 52428801)).2.2.2.2 (by decide) (by decide) (by decide)⟩

/-- C8: on every record the validation `checks` list records the checks in
the same fixed order: processing status, the required fields title, filename,
fileUrl, duration, file existence, audio quality.  `validate_content_for_promotion`
is a pure function of the record and the bucket listing, so two calls on the
same record yield the identical list. -/
theorem validation_checks_fixed_order (t : Track) (fe : Bool) :
    (validate_content_for_promotion t fe).checks.map CheckResult.name =
      ["Processing Status", "Required Field: title", "Required Field: filename",
       "Required Field: fileUrl", "Required Field: duration", "File Existence",
       "Audio Quality"] := by
  simp [validate_content_for_promotion, required_fields, statusCheck_name,
    requiredFieldCheck_name, validate_audio_quality_name, fieldName]

/-- C4: promoting with a failed validation result raises the
validation-required error and leaves the world — PROD bucket, PROD table and
staging record — untouched. -/
theorem promote_requires_validation (devBucket prodBucket : String)
    (env : PromotionEnv) (vr : ValidationResult) (w : PromoteWorld)
    (h : vr.valid = false) :
    promote_content_to_prod devBucket prodBucket env vr w =
      (Except.error "Content failed validation, cannot promote", w) := by
  simp [promote_content_to_prod, h]

/-- Witness for C4: a record whose status is still `processing` fails
validation, and promoting it is rejected with the world unchanged. -/
theorem promote_requires_validation_witness :
    promote_content_to_prod "dev-bucket" "prod-bucket" env0
      (validate_content_for_promotion { tX with status := some "processing" } true) wX =
      (Except.error "Content failed validation, cannot promote", wX) :=
  promote_requires_validation "dev-bucket" "prod-bucket" env0
    (validate_content_for_promotion { tX with status := some "processing" } true) wX
    (by decide)

/-- C7: the single-track workflow result satisfies
`success = all(step.success)` over the recorded steps; a workflow aborted at
validation or promotion returns `success = false` with only the executed
steps recorded and an error naming the failed stage, and no later stage runs
(no step for it is recorded). -/
theorem workflow_success_semantics (tid : String) (v p s : Bool) :
    ((process_promotion_workflow tid v p s).success =
       (process_promotion_workflow tid v p s).steps.all (·.success)) ∧
    (v = false →
      process_promotion_workflow tid v p s =
        { trackId := tid, steps := [{ step := "validation", success := false }],
          success := false, error := some "Validation failed" }) ∧
    (v = true → p = false →
      process_promotion_workflow tid v p s =
        { trackId := tid,
          steps := [{ step := "validation", success := true },
                    { step := "promotion", success := false }],
          success := false, error := some "Promotion failed" }) ∧
    (v = true → p = true →
      process_promotion_workflow tid v p s =
        { trackId := tid,
          steps := [{ step := "validation", success := true },
                    { step := "promotion", success := true },
                    { step := "testing", success := s }],
          success := s,
          error := if s then none else some "Post-promotion tests failed" }) := by
  rcases v <;> rcases p <;> rcases s <;>
    simp [process_promotion_workflow, List.all_cons]

/-- Witness for C7: a failed validation aborts the workflow after one step. -/
theorem workflow_success_semantics_witness :
    process_promotion_workflow "X" false true true =
      { trackId := "X", steps := [{ step := "validation", success := false }],
        success := false, error := some "Validation failed" } :=
  (workflow_success_semantics "X" false true true).2.1 rfl

/-- C9: in every completed batch run, `promoted + failed` equals
`min(scanned, maxPromotions)`: every attempted workflow is counted exactly
once and exactly `min(scanned, maxPromotions)` workflows are attempted. -/
theorem batch_counts_invariant (table : Option (List DevRecord)) (scanFails : Bool)
    (validF promoF testF : String → Bool) (m : Nat) :
    (process_batch_promotion table scanFails validF promoF testF m).summary.promoted +
      (process_batch_promotion table scanFails validF promoF testF m).summary.failed =
      min (process_batch_promotion table scanFails validF promoF testF m).summary.scanned m ∧
    (process_batch_promotion table scanFails validF promoF testF m).promotions.length =
      min (process_batch_promotion table scanFails validF promoF testF m).summary.scanned m := by
  simp only [process_batch_promotion]
  constructor
  · rw [countP_add_countP_not]
    simp [List.length_take, Nat.min_comm]
  · simp [List.length_take, Nat.min_comm]

/-- C10: a failing candidate scan (store error or unconfigured table) yields
an empty candidate list, not an error; the batch run then reports
`scanned = 0`, `failed = 0`, attempts no promotion and schedules no follow-up
— indistinguishable in the batch result from a genuinely empty table. -/
theorem scan_failure_empty_batch (records : List DevRecord) (sf : Bool)
    (validF promoF testF : String → Bool) (m : Nat) :
    scan_for_promotion_candidates none sf = [] ∧
    scan_for_promotion_candidates (some records) true = [] ∧
    handler_batch_promotion (some records) true validF promoF testF m =
      handler_batch_promotion (some []) false validF promoF testF m ∧
    handler_batch_promotion none sf validF promoF testF m =
      handler_batch_promotion (some []) false validF promoF testF m ∧
    (handler_batch_promotion (some records) true validF promoF testF m).1.summary.scanned = 0 ∧
    (handler_batch_promotion (some records) true validF promoF testF m).1.summary.failed = 0 ∧
    (handler_batch_promotion (some records) true validF promoF testF m).1.promotions = [] ∧
    (handler_batch_promotion (some records) true validF promoF testF m).2 = 0 := by
  rcases sf <;>
    simp [handler_batch_promotion, process_batch_promotion, scan_for_promotion_candidates]

/-- C1 (amended): the promotion steps run in order — copy, build and insert
the production record, update the staging record — and a failure of the copy
or of the production insert aborts the remaining steps and propagates; but a
failure of the final staging-record update does NOT propagate: it is caught
inside `_update_dev_promotion_status` and only logged, and the call still
returns success, merely leaving the staging record without the promotion
marker. -/
theorem promote_step_order_and_propagation (devBucket prodBucket : String)
    (env : PromotionEnv) (vr : ValidationResult) (w : PromoteWorld) (track : Track)
    (hv : vr.valid = true) (ht : vr.track = some track) :
    (∀ i : Nat, env.copyFailIdx = some i → i < w.devObjects.length →
      promote_content_to_prod devBucket prodBucket env vr w =
        (Except.error "copy failed",
         { w with prodObjects := w.prodObjects ++ w.devObjects.take i })) ∧
    (copySucceeds w.devObjects env.copyFailIdx = true → env.putItemFails = true →
      promote_content_to_prod devBucket prodBucket env vr w =
        (Except.error "put_item failed",
         { w with prodObjects := w.prodObjects ++ w.devObjects })) ∧
    (copySucceeds w.devObjects env.copyFailIdx = true → env.putItemFails = false →
      promote_content_to_prod devBucket prodBucket env vr w =
        (Except.ok { trackId := track.id, copiedFiles := w.devObjects,
                     prodMetadata := create_prod_metadata devBucket prodBucket track },
         { w with prodObjects := w.prodObjects ++ w.devObjects,
                  prodTable := w.prodTable ++ [create_prod_metadata devBucket prodBucket track],
                  devRecord := if env.updateFails then w.devRecord
                               else { w.devRecord with promotionStatus := some "promoted" } })) :=
  ⟨fun i hcf hi => promote_copy_failure devBucket prodBucket env vr w track i hv ht hcf hi,
   fun hc hp => promote_put_failure devBucket prodBucket env vr w track hv ht hc hp,
   fun hc hp => promote_ok_path devBucket prodBucket env vr w track hv ht hc hp⟩

/-- Witness for C1 (amended): on the all-steps-succeed path the promotion
copies the object, inserts the production record and marks the staging
record. -/
theorem promote_step_order_and_propagation_witness :
    promote_content_to_prod "dev-bucket" "prod-bucket" env0
        (validate_content_for_promotion tX true) wX =
      (Except.ok { trackId := tX.id, copiedFiles := wX.devObjects,
                   prodMetadata := create_prod_metadata "dev-bucket" "prod-bucket" tX },
       { wX with prodObjects := wX.prodObjects ++ wX.devObjects,
                 prodTable := wX.prodTable ++ [create_prod_metadata "dev-bucket" "prod-bucket" tX],
                 devRecord := if env0.updateFails then wX.devRecord
                              else { wX.devRecord with promotionStatus := some "promoted" } }) :=
  (promote_step_order_and_propagation "dev-bucket" "prod-bucket" env0
      (validate_content_for_promotion tX true) wX tX (by decide) (by decide)).2.2
    (by decide) rfl

/-- Counterexample to C1 as stated: with every step succeeding except the
final staging-record update (`envU.updateFails = true`), the promotion call
returns success instead of propagating the update error, and the staging
record is left without the promotion marker. -/
theorem promote_update_failure_absorbed_cex :
    (promote_content_to_prod "dev-bucket" "prod-bucket" envU
       (validate_content_for_promotion tX true) wX).1.isOk = true ∧
    (promote_content_to_prod "dev-bucket" "prod-bucket" envU
       (validate_content_for_promotion tX true) wX).2.devRecord.promotionStatus = none := by
  decide

/-- C2 (amended): the candidate scan only returns records whose
`promotionStatus` attribute is absent; and when the staging-record update
step itself succeeds, a successful promotion leaves `promotionStatus =
promoted` present, so later scans exclude the artifact.  (As stated the
claim is false: a promote call can return success while the swallowed
update failure leaves `promotionStatus` absent — see the counterexample.) -/
theorem candidates_promotion_status_absent (records : List DevRecord) :
    (∀ c ∈ scan_for_promotion_candidates (some records) false,
      ∃ r ∈ records, r.track.promotionStatus = none ∧ c.trackId = r.track.id) ∧
    (∀ (devBucket prodBucket : String) (env : PromotionEnv) (vr : ValidationResult)
       (w : PromoteWorld) (track : Track),
      vr.valid = true → vr.track = some track →
      copySucceeds w.devObjects env.copyFailIdx = true →
      env.putItemFails = false → env.updateFails = false →
      (promote_content_to_prod devBucket prodBucket env vr w).2.devRecord.promotionStatus =
        some "promoted") := by
  constructor
  · intro c hc
    simp only [scan_for_promotion_candidates, Bool.false_eq_true, if_false,
      List.mem_map, List.mem_filter, Bool.and_eq_true, decide_eq_true_eq] at hc
    obtain ⟨r, ⟨⟨hr, _, hps⟩, _⟩, hmk⟩ := hc
    exact ⟨r, hr, hps, by rw [← hmk]; rfl⟩
  · intro devBucket prodBucket env vr w track hv ht hc hp hu
    rw [promote_ok_path devBucket prodBucket env vr w track hv ht hc hp]
    simp [hu]

/-- Witness for C2 (amended): with the update step succeeding, the promoted
artifact's staging record carries the marker. -/
theorem candidates_promotion_status_absent_witness :
    (promote_content_to_prod "dev-bucket" "prod-bucket" env0
       (validate_content_for_promotion tX true) wX).2.devRecord.promotionStatus =
      some "promoted" :=
  (candidates_promotion_status_absent []).2 "dev-bucket" "prod-bucket" env0
    (validate_content_for_promotion tX true) wX tX (by decide) (by decide) (by decide)
    rfl rfl

/-- Counterexample to C2 as stated: a promote call that returned success but
whose staging-record update silently failed leaves `promotionStatus` absent,
and a later candidate scan still lists the artifact. -/
theorem promoted_artifact_rescanned_cex :
    (promote_content_to_prod "dev-bucket" "prod-bucket" envU
       (validate_content_for_promotion tX true) wX).1.isOk = true ∧
    (scan_for_promotion_candidates
       (some [{ track := (promote_content_to_prod "dev-bucket" "prod-bucket" envU
                   (validate_content_for_promotion tX true) wX).2.devRecord,
                ageHours := 2 }]) false).map Candidate.trackId = ["X"] := by
  decide

/-- C6: a scan yielding 12 eligible candidates with `maxPromotions = 5` makes
one batch run execute the promotion workflow on exactly the first 5
candidates, report `scanned = 12`, and register exactly one follow-up
scheduling call; in general the handler makes the follow-up call iff
`scanned > promoted + failed`. -/
theorem batch_pacing (table : Option (List DevRecord))
    (validF promoF testF : String → Bool)
    (h : (scan_for_promotion_candidates table false).length = 12) :
    ((process_batch_promotion table false validF promoF testF 5).summary.scanned = 12 ∧
     (process_batch_promotion table false validF promoF testF 5).promotions =
       ((scan_for_promotion_candidates table false).take 5).map
         (fun c => process_promotion_workflow c.trackId (validF c.trackId)
                     (promoF c.trackId) (testF c.trackId)) ∧
     (process_batch_promotion table false validF promoF testF 5).promotions.length = 5 ∧
     (handler_batch_promotion table false validF promoF testF 5).2 = 1) ∧
    (∀ (table2 : Option (List DevRecord)) (sf : Bool) (m : Nat),
      (handler_batch_promotion table2 sf validF promoF testF m).2 =
        if (process_batch_promotion table2 sf validF promoF testF m).summary.promoted +
             (process_batch_promotion table2 sf validF promoF testF m).summary.failed <
           (process_batch_promotion table2 sf validF promoF testF m).summary.scanned
        then 1 else 0) := by
  have hlen : ((scan_for_promotion_candidates table false).take 5).length = 5 := by
    simp only [List.length_take, h]
    omega
  have hcount :
      (process_batch_promotion table false validF promoF testF 5).summary.promoted +
        (process_batch_promotion table false validF promoF testF 5).summary.failed = 5 := by
    simp only [process_batch_promotion]
    rw [countP_add_countP_not]
    simpa using hlen
  refine ⟨⟨by simp [process_batch_promotion, h], rfl,
            by simp only [process_batch_promotion, List.length_map]; exact hlen, ?_⟩,
          fun table2 sf m => rfl⟩
  have hsc : (process_batch_promotion table false validF promoF testF 5).summary.scanned = 12 := by
    simp [process_batch_promotion, h]
  show (if _ < _ then 1 else 0) = 1
  rw [hcount, hsc]
  norm_num

/-- Witness for C6: 12 concrete eligible records, `maxPromotions = 5`. -/
theorem batch_pacing_witness :
    (process_batch_promotion (some recs12) false (fun _ => true) (fun _ => true)
        (fun _ => true) 5).summary.scanned = 12 ∧
    (process_batch_promotion (some recs12) false (fun _ => true) (fun _ => true)
        (fun _ => true) 5).promotions.length = 5 ∧
    (handler_batch_promotion (some recs12) false (fun _ => true) (fun _ => true)
        (fun _ => true) 5).2 = 1 :=
  ⟨(batch_pacing (some recs12) (fun _ => true) (fun _ => true) (fun _ => true)
      (by decide)).1.1,
   (batch_pacing (some recs12) (fun _ => true) (fun _ => true) (fun _ => true)
      (by decide)).1.2.2.1,
   (batch_pacing (some recs12) (fun _ => true) (fun _ => true) (fun _ => true)
      (by decide)).1.2.2.2⟩

/-- Removing one field leaves every other field's truthiness unchanged. -/
theorem fieldTruthy_removeField_ne (t : Track) (f g : ReqField) (h : ¬ g = f) :
    fieldTruthy (removeField t f) g = fieldTruthy t g := by
  cases f <;> cases g <;> first | rfl | exact absurd rfl h

/-- C3 (amended): on a record that validates as valid, removing `title`,
`filename` or `fileUrl` flips `valid` to false and adds exactly the one
corresponding failed required-field check; but removing `duration` adds TWO
failed checks — the required-field check and the audio-quality check, because
`_validate_audio_quality` reads the missing duration as 0, which is below the
1-second bound. -/
theorem required_field_removal (t : Track) (fe : Bool)
    (h : (validate_content_for_promotion t fe).valid = true) :
    (∀ f : ReqField, f ≠ ReqField.duration →
      (validate_content_for_promotion (removeField t f) fe).valid = false ∧
      failedChecks (validate_content_for_promotion (removeField t f) fe) =
        [{ name := "Required Field: " ++ fieldName f, passed := false,
           message := "Missing required field: " ++ fieldName f }]) ∧
    ((validate_content_for_promotion (removeField t ReqField.duration) fe).valid = false ∧
     failedChecks (validate_content_for_promotion (removeField t ReqField.duration) fe) =
       [{ name := "Required Field: duration", passed := false,
          message := "Missing required field: duration" },
        { name := "Audio Quality", passed := false,
          message := "Duration is too short (less than 1 second)" }]) := by
  obtain ⟨hs, hf, hfe, hq⟩ := valid_components t fe h
  have estat : ∀ f : ReqField, statusCheck (removeField t f) =
      { name := "Processing Status", passed := true, message := "Track is fully processed" } :=
    fun f => by rw [statusCheck_removeField]; exact statusCheck_pass t hs
  constructor
  · intro f hfd
    have equal : validate_audio_quality (removeField t f) = validate_audio_quality t :=
      quality_removeField t f hfd
    cases f
    case duration => exact absurd rfl hfd
    case title =>
      have efail : requiredFieldCheck (removeField t ReqField.title) ReqField.title =
          { name := "Required Field: " ++ fieldName ReqField.title, passed := false,
            message := "Missing required field: " ++ fieldName ReqField.title } :=
        requiredFieldCheck_fail _ _ (by simp [fieldTruthy, strTruthy, removeField])
      refine ⟨?_, ?_⟩ <;>
        simp [validate_content_for_promotion, required_fields, failedChecks,
          estat, efail, equal, hq, hfe,
          requiredFieldCheck_passed, fieldTruthy_removeField_ne, hf, fieldName]
    case filename =>
      have efail : requiredFieldCheck (removeField t ReqField.filename) ReqField.filename =
          { name := "Required Field: " ++ fieldName ReqField.filename, passed := false,
            message := "Missing required field: " ++ fieldName ReqField.filename } :=
        requiredFieldCheck_fail _ _ (by simp [fieldTruthy, strTruthy, removeField])
      refine ⟨?_, ?_⟩ <;>
        simp [validate_content_for_promotion, required_fields, failedChecks,
          estat, efail, equal, hq, hfe,
          requiredFieldCheck_passed, fieldTruthy_removeField_ne, hf, fieldName]
    case fileUrl =>
      have efail : requiredFieldCheck (removeField t ReqField.fileUrl) ReqField.fileUrl =
          { name := "Required Field: " ++ fieldName ReqField.fileUrl, passed := false,
            message := "Missing required field: " ++ fieldName ReqField.fileUrl } :=
        requiredFieldCheck_fail _ _ (by simp [fieldTruthy, strTruthy, removeField])
      refine ⟨?_, ?_⟩ <;>
        simp [validate_content_for_promotion, required_fields, failedChecks,
          estat, efail, equal, hq, hfe,
          requiredFieldCheck_passed, fieldTruthy_removeField_ne, hf, fieldName]
  · have equal : validate_audio_quality (removeField t ReqField.duration) =
        { name := "Audio Quality", passed := false,
          message := "Duration is too short (less than 1 second)" } :=
      quality_noDuration t
    have efail : requiredFieldCheck (removeField t ReqField.duration) ReqField.duration =
        { name := "Required Field: " ++ fieldName ReqField.duration, passed := false,
          message := "Missing required field: " ++ fieldName ReqField.duration } :=
      requiredFieldCheck_fail _ _ (by simp [fieldTruthy, ratTruthy, removeField])
    refine ⟨?_, ?_⟩ <;>
      simp [validate_content_for_promotion, required_fields, failedChecks,
        estat, efail, equal, hfe,
        requiredFieldCheck_passed, fieldTruthy_removeField_ne, hf, fieldName]

/-- Witness for C3 (amended): removing `title` from the valid fixture record
yields exactly the one corresponding failed check. -/
theorem required_field_removal_witness :
    (validate_content_for_promotion (removeField tX ReqField.title) true).valid = false ∧
    failedChecks (validate_content_for_promotion (removeField tX ReqField.title) true) =
      [{ name := "Required Field: title", passed := false,
         message := "Missing required field: title" }] :=
  (required_field_removal tX true (by decide)).1 ReqField.title (by decide)

/-- Counterexample to C3 as stated: the fixture record validates as valid,
yet removing `duration` produces TWO failed checks — the required-field check
and the audio-quality check — not exactly one. -/
theorem duration_removal_two_failures_cex :
    (validate_content_for_promotion tX true).valid = true ∧
    failedChecks (validate_content_for_promotion (removeField tX ReqField.duration) true) =
      [{ name := "Required Field: duration", passed := false,
         message := "Missing required field: duration" },
       { name := "Audio Quality", passed := false,
         message := "Duration is too short (less than 1 second)" }] := by
  decide
